import Mathlib

/-!
A verification development for the financial-data extraction pipeline in
`src/main.py` of the `aura` repository.  Each Python function that the
claims reference is shallowly embedded as an executable Lean definition:

* `extract_features` — the XBRL tag scanner (Python lines 115-149);
* `extract_financial_data` / `extract_parse` — the AI extraction
  orchestrator and its response-parsing stage (lines 184-223);
* `save_financial_data` — the SQLite persistence loop (lines 225-286);
* `yoy_revenue` and `liquidity_rows` — two of the fixed analysis queries
  of `run_analysis_queries` (lines 309-416);
* `main_results` — the batch map built by `main_flow` (lines 418-443).

Machine reals (Python floats, SQLite REAL) are modelled as exact
rationals; floating-point rounding is outside the scope of the claims.
Strings are modelled over their character lists; the modelling is exact
for ASCII content, which is the collation SQLite BINARY and Python
byte-wise comparison agree on.
-/

namespace Aura

/-! ## Canonical data model

The JSON payload the pipeline passes around (`json.loads` output) is a
nested dictionary.  A key can be absent (a lookup raises `KeyError`) or
bound to `null` (a lookup yields `None`).  Groups are modelled as
`Option` sub-records; metric fields inside a present group are `Option`
values, where `none` models a JSON `null` (SQLite accepts it as `NULL`
since the metric columns are nullable).  A missing metric key inside a
present group raises the same caught `KeyError` as a missing group and
is modelled by the absence of the group. -/

structure DocInfo where
  company_name : Option String
  fiscal_year : Option String
  document_type : Option String
deriving DecidableEq, Repr

structure IncomeStatement where
  revenue : Option ℚ
  operating_income : Option ℚ
  net_income : Option ℚ
deriving DecidableEq, Repr

structure BalanceSheet where
  total_assets : Option ℚ
  total_liabilities : Option ℚ
  total_equity : Option ℚ
deriving DecidableEq, Repr

structure CashFlow where
  operating_cash_flow : Option ℚ
  investing_cash_flow : Option ℚ
  financing_cash_flow : Option ℚ
deriving DecidableEq, Repr

structure RawData where
  document_info : Option DocInfo
  income_statement : Option IncomeStatement
  balance_sheet : Option BalanceSheet
  cash_flow : Option CashFlow
deriving DecidableEq, Repr

/-- The `default_data` record of `extract_financial_data`
(Python lines 208-213): company "Unknown", fiscal year "2023",
document type "10-K", every numeric field `0`. -/
def default_data : RawData :=
  { document_info := some ⟨some "Unknown", some "2023", some "10-K"⟩,
    income_statement := some ⟨some 0, some 0, some 0⟩,
    balance_sheet := some ⟨some 0, some 0, some 0⟩,
    cash_flow := some ⟨some 0, some 0, some 0⟩ }

/-! ## Tag Fact Scanner (`extract_features`, Python lines 115-149)

The markup library (BeautifulSoup) is out of scope per the spec; a
parsed document is modelled as the sequence of inline-tagged elements in
document order, each carrying its tag kind, optional attributes and text
content. -/

inductive TagKind where
  | nonfraction
  | nonnumeric
deriving DecidableEq, Repr

structure Element where
  kind : TagKind
  name : Option String
  text : String
  unitRef : Option String
  decimals : Option String
deriving DecidableEq, Repr

inductive FactValue where
  | num (q : ℚ)
  | str (s : String)
deriving DecidableEq, Repr

structure Fact where
  tag : String
  name : String
  value : FactValue
  unit : String
  decimals : String
deriving DecidableEq, Repr

/-- The characters Python `str.isspace()` accepts in the ASCII range:
space, `\t`, `\n`, `\r`, `\x0b` (vertical tab) and `\x0c` (form
feed). -/
def pyIsSpace (c : Char) : Bool :=
  decide (c = ' ') || decide (c = '\t') || decide (c = '\n') || decide (c = '\r')
    || decide (c = '\x0b') || decide (c = '\x0c')

/-- Python `str.strip()`: drop leading and trailing whitespace. -/
def pyStrip (s : String) : String :=
  String.mk (((s.data.dropWhile pyIsSpace).reverse.dropWhile
    pyIsSpace).reverse)

/-- Python `re.sub(r",", "", s)`: delete every comma. -/
def removeCommas (s : String) : String :=
  String.mk (s.data.filter (fun c => decide (c ≠ ',')))

/-- Matches `\d+(\.\d+)?$` against a character list. -/
def matchesDigitsDot (l : List Char) : Bool :=
  let d := l.takeWhile Char.isDigit
  let rest := l.dropWhile Char.isDigit
  decide (d ≠ []) &&
    (match rest with
     | [] => true
     | c :: r2 =>
         decide (c = '.') && decide (r2 ≠ []) && r2.all Char.isDigit)

/-- The anchored numeral pattern `^-?\d+(\.\d+)?$` of Python line 124.
Without `re.MULTILINE`, `$` asserts either the end of the string or the
position just before a single newline that ends the string, so the
pattern also accepts a numeral followed by one trailing `\n` (such a
newline can survive `strip()` when a comma followed it, since the comma
is removed only afterwards). -/
def matchesNumeral (s : String) : Bool :=
  let body : List Char :=
    if s.data.getLast? = some '\n' then s.data.dropLast else s.data
  match body with
  | '-' :: rest => matchesDigitsDot rest
  | l => matchesDigitsDot l

/-- Decimal digit run to a natural number. -/
def digitsToNat (l : List Char) : ℕ :=
  l.foldl (fun a c => a * 10 + (c.toNat - 48)) 0

/-- Python `float(value)` on a string already known to match the numeral
pattern, idealised to an exact rational.  `float()` ignores surrounding
whitespace, so a trailing newline accepted by the `$` anchor is
stripped before the digits are read. -/
def parseNumeral (s : String) : ℚ :=
  let t : List Char :=
    ((s.data.dropWhile pyIsSpace).reverse.dropWhile pyIsSpace).reverse
  let signed : Bool × List Char :=
    match t with
    | '-' :: rest => (true, rest)
    | l => (false, l)
  let intPart := signed.2.takeWhile Char.isDigit
  let rest := signed.2.dropWhile Char.isDigit
  let frac : ℚ :=
    match rest with
    | '.' :: r2 => (digitsToNat r2 : ℚ) / ((10 : ℚ) ^ r2.length)
    | _ => 0
  (if signed.1 then -1 else 1) * ((digitsToNat intPart : ℚ) + frac)

/-- Processing of one `ix:nonfraction` element (Python lines 121-134).
The surrounding `try` never fires: every operation in the body is total
here, so the element either yields one fact or is silently dropped. -/
def numericFact (e : Element) : Option Fact :=
  let value := removeCommas (pyStrip e.text)
  if matchesNumeral value then
    some { tag := "nonfraction",
           name := e.name.getD "Unknown",
           value := FactValue.num (parseNumeral value),
           unit := e.unitRef.getD "Unknown",
           decimals := e.decimals.getD "Unknown" }
  else
    none

/-- Processing of one `ix:nonnumeric` element (Python lines 137-147). -/
def nonnumericFact (e : Element) : Fact :=
  { tag := "nonnumeric",
    name := e.name.getD "Unknown",
    value := FactValue.str (pyStrip e.text),
    unit := "N/A",
    decimals := "N/A" }

/-- First loop of `extract_features`: `soup.find_all("ix:nonfraction")`
visits the numeric-tagged elements in document order and appends the
facts that survive the numeral filter. -/
def numericPass : List Element → List Fact
  | [] => []
  | e :: rest =>
      if e.kind = TagKind.nonfraction then
        match numericFact e with
        | some f => f :: numericPass rest
        | none => numericPass rest
      else numericPass rest

/-- Second loop of `extract_features`: `soup.find_all("ix:nonnumeric")`
visits the non-numeric-tagged elements in document order. -/
def nonnumericPass : List Element → List Fact
  | [] => []
  | e :: rest =>
      if e.kind = TagKind.nonnumeric then
        nonnumericFact e :: nonnumericPass rest
      else nonnumericPass rest

/-- `extract_features` (Python lines 115-149): the shared `data` list
receives all numeric facts first, then all non-numeric facts. -/
def extract_features (els : List Element) : List Fact :=
  numericPass els ++ nonnumericPass els

/-! ## AI Extraction Orchestrator (`extract_financial_data`,
Python lines 184-223) -/

/-- One message of `client.beta.threads.messages.list`.  The content is
what `json.loads(message.content[0].text.value)` would produce:
`Except.error` models a raised `json.JSONDecodeError` (malformed JSON),
`Except.ok` a successfully decoded payload.  Decoded payloads are
object-shaped records with possibly absent groups; `json.loads` performs
no schema validation. -/
structure Message where
  role : String
  content : Except Unit RawData

/-- The message scan of Python lines 215-223: the first message whose
role is "assistant" is parsed; a parse exception or the absence of any
assistant message yields `default_data`. -/
def extract_parse (msgs : List Message) : RawData :=
  match msgs.find? (fun m => decide (m.role = "assistant")) with
  | some m =>
      match m.content with
      | Except.ok r => r
      | Except.error _ => default_data
  | none => default_data

/-- Which remote calls of `extract_financial_data` raise on a given run.
`runs.create` is line 188, the poll-loop `runs.retrieve` is line 195,
`messages.list` is line 200.  A flag set to `true` means that call
raises; the poll loop is assumed to terminate (liveness is out of
scope). -/
structure RemoteEnv where
  create_raises : Bool
  retrieve_raises : Bool
  list_raises : Bool
deriving DecidableEq, Repr

/-- Observable resource effects of one run of `extract_financial_data`:
how many times `assistants.delete` (line 205) and `files.delete`
(line 206) were executed, and whether the function terminated by an
uncaught exception instead of a return. -/
structure ExtractTrace where
  assistant_deletes : ℕ
  file_deletes : ℕ
  raised : Bool
deriving DecidableEq, Repr

/-- `extract_financial_data` (Python lines 184-223).  The body has no
`try`/`finally`: the two delete calls at lines 205-206 run only if
every remote call before them returned normally.  The result is the
resource trace paired with the returned record (`none` when the
function raised). -/
def extract_financial_data (env : RemoteEnv) (msgs : List Message) :
    ExtractTrace × Option RawData :=
  if env.create_raises then (⟨0, 0, true⟩, none)
  else if env.retrieve_raises then (⟨0, 0, true⟩, none)
  else if env.list_raises then (⟨0, 0, true⟩, none)
  else (⟨1, 1, false⟩, some (extract_parse msgs))

/-- The environment in which no remote call raises. -/
def happyEnv : RemoteEnv := ⟨false, false, false⟩

/-! ## Persistence Layer (`save_financial_data`, Python lines 225-286)

The SQLite store: four tables plus the AUTOINCREMENT counter for
`documents.id`.  Statement rows are keyed by `document_id`. -/

structure DocRow where
  company_name : String
  fiscal_year : String
  document_type : String
deriving DecidableEq, Repr

structure DB where
  documents : List (ℕ × DocRow)
  income_statements : List (ℕ × IncomeStatement)
  balance_sheets : List (ℕ × BalanceSheet)
  cash_flows : List (ℕ × CashFlow)
  nextDocId : ℕ
deriving DecidableEq, Repr

def emptyDB : DB := ⟨[], [], [], [], 1⟩

/-- The SQLite connection: the state visible to other readers
(`committed`) and the working state of the open transaction
(`pending`).  `conn.commit()` publishes the pending state;
`conn.rollback()` discards it. -/
structure Conn where
  committed : DB
  pending : DB
deriving DecidableEq, Repr

def Conn.commit (c : Conn) : Conn := ⟨c.pending, c.pending⟩

def Conn.rollback (c : Conn) : Conn := ⟨c.committed, c.committed⟩

/-- `INSERT INTO documents ...` (Python lines 238-242).  The three
columns are declared `NOT NULL`; inserting a missing or `null` value
raises `sqlite3.IntegrityError`, modelled by `none`.  On success the
row is appended and `cursor.lastrowid` is returned. -/
def insertDocument (db : DB) (i : DocInfo) : Option (DB × ℕ) :=
  match i.company_name, i.fiscal_year, i.document_type with
  | some cn, some fy, some dt =>
      some ({ db with
                documents := db.documents ++ [(db.nextDocId, ⟨cn, fy, dt⟩)],
                nextDocId := db.nextDocId + 1 },
            db.nextDocId)
  | _, _, _ => none

/-- The body of the per-document `try` block (Python lines 236-275):
the four inserts followed by `conn.commit()`.  A `none` group lookup
models the `KeyError` the dictionary access raises, caught by the
`except` clauses; `none` overall means the block raised before the
commit. -/
def docUnit (db : DB) (data : RawData) (i : DocInfo) : Option DB := do
  let (db1, docId) ← insertDocument db i
  let inc ← data.income_statement
  let db2 := { db1 with income_statements := db1.income_statements ++ [(docId, inc)] }
  let bs ← data.balance_sheet
  let db3 := { db2 with balance_sheets := db2.balance_sheets ++ [(docId, bs)] }
  let cf ← data.cash_flow
  pure { db3 with cash_flows := db3.cash_flows ++ [(docId, cf)] }

/-- Whether the per-document `try` block fails for a record whose
`document_info` group is present: a `NOT NULL` violation on the
documents insert, or a missing statement group. -/
def docFails (data : RawData) : Bool :=
  match data.document_info with
  | none => true
  | some i =>
      !(i.company_name.isSome && i.fiscal_year.isSome &&
        i.document_type.isSome && data.income_statement.isSome &&
        data.balance_sheet.isSome && data.cash_flow.isSome)

/-- One iteration of the `for filename, data in results.items()` loop
(Python lines 234-282).  The lookup `data["document_info"]` at line 235
sits outside the `try`: its `KeyError` propagates (`Except.error`) and
ends the loop.  Inside the `try`, failure triggers `conn.rollback()`
and the loop continues. -/
def saveOne (c : Conn) (data : RawData) : Except Unit Conn :=
  match data.document_info with
  | none => Except.error ()
  | some i =>
      Except.ok (match docUnit c.pending data i with
        | some db2 => Conn.commit ⟨c.committed, db2⟩
        | none => Conn.rollback c)

/-- The persistence loop over the batch.  The Bool records whether the
loop was ended by an uncaught exception; the `finally` clause closes
the connection either way, so the committed state survives. -/
def save_loop (c : Conn) : List (String × RawData) → Conn × Bool
  | [] => (c, false)
  | (_, data) :: rest =>
      match saveOne c data with
      | Except.ok c2 => save_loop c2 rest
      | Except.error _ => (c, true)

/-- `save_financial_data` (Python lines 225-286) on the SQLite side,
starting from the store `init_database` created: the committed store
on exit, and whether an uncaught exception ended the batch early.
The trailing `conn.commit()` at line 284 republishes the already
committed state and is a no-op. -/
def save_financial_data (results : List (String × RawData)) : DB × Bool :=
  let r := save_loop ⟨emptyDB, emptyDB⟩ results
  (r.1.committed, r.2)

/-! ## Analytics Engine (`run_analysis_queries`, Python lines 309-416)

SQL semantics used by the two queries under verification: `ORDER BY`
on a TEXT column is byte-wise (BINARY collation), arithmetic on a
`NULL` operand yields `NULL`, and division by zero yields `NULL`
rather than raising. -/

/-- Byte-wise (BINARY collation) string comparison, exact for ASCII. -/
def charListLe : List Char → List Char → Bool
  | [], _ => true
  | _ :: _, [] => false
  | a :: as, b :: bs =>
      if a = b then charListLe as bs else decide (a < b)

def strLe (a b : String) : Bool := charListLe a.data b.data

def sortByYear {β : Type} (l : List (String × β)) : List (String × β) :=
  List.insertionSort (fun a b => strLe a.1 b.1 = true) l

/-- SQL binary arithmetic with NULL propagation. -/
def sqlSub : Option ℚ → Option ℚ → Option ℚ
  | some a, some b => some (a - b)
  | _, _ => none

/-- SQL division: NULL on a NULL operand or a zero denominator. -/
def sqlDiv : Option ℚ → Option ℚ → Option ℚ
  | some a, some b => if b = 0 then none else some (a / b)
  | _, _ => none

/-- SQLite `ROUND(x, 2)`: half away from zero, idealised over ℚ. -/
def sqlRound2 (q : ℚ) : ℚ :=
  if q < 0 then -((⌊-q * 100 + 1 / 2⌋ : ℚ) / 100)
  else (⌊q * 100 + 1 / 2⌋ : ℚ) / 100

/-- `FROM documents d JOIN income_statements i ON d.id = i.document_id`,
projected to `(fiscal_year, revenue)`. -/
def docIncomeJoin (db : DB) : List (String × Option ℚ) :=
  db.documents.flatMap (fun d =>
    (db.income_statements.filter (fun r => decide (r.1 = d.1))).map
      (fun r => (d.2.fiscal_year, r.2.revenue)))

/-- `FROM documents d JOIN balance_sheets b ON d.id = b.document_id`,
projected to `(fiscal_year, (total_assets, total_liabilities))`. -/
def docBalanceJoin (db : DB) : List (String × (Option ℚ × Option ℚ)) :=
  db.documents.flatMap (fun d =>
    (db.balance_sheets.filter (fun r => decide (r.1 = d.1))).map
      (fun r => (d.2.fiscal_year, (r.2.total_assets, r.2.total_liabilities))))

/-- Query 1 of `run_analysis_queries` (Python lines 316-331):
`LAG(revenue) OVER (ORDER BY fiscal_year)`, rows with NULL
`prev_revenue` excluded, growth `ROUND((rev - prev)/prev*100, 2)`. -/
def yoy_revenue (db : DB) : List (String × Option ℚ) :=
  let rows := sortByYear (docIncomeJoin db)
  let lagged := rows.zip (none :: rows.map (fun r => r.2))
  lagged.filterMap (fun rp =>
    match rp.2 with
    | none => none
    | some prev =>
        some (rp.1.1,
          (sqlDiv (sqlSub rp.1.2 (some prev)) (some prev)).map
            (fun q => sqlRound2 (q * 100))))

/-- Query 5 of `run_analysis_queries` (Python lines 373-380):
`ROUND((total_assets - total_liabilities) / total_liabilities * 100, 2)`
for every fiscal year, ordered by fiscal year. -/
def liquidity_rows (db : DB) : List (String × Option ℚ) :=
  (sortByYear (docBalanceJoin db)).map (fun r =>
    (r.1,
      (sqlDiv (sqlSub r.2.1 r.2.2) r.2.2).map
        (fun q => sqlRound2 (q * 100))))

/-! ## Main flow batch map (`main_flow`, Python lines 418-443) -/

/-- `os.path.basename` for POSIX paths: the suffix after the last
slash. -/
def basename (p : String) : String :=
  String.mk (p.data.foldl (fun acc c => if c = '/' then [] else acc ++ [c]) [])

/-- Assignment `results[key] = value` on an insertion-ordered Python
dict: replace in place when the key exists, append otherwise. -/
def dictInsert (k : String) (v : RawData) :
    List (String × RawData) → List (String × RawData)
  | [] => [(k, v)]
  | (k2, v2) :: t =>
      if k2 = k then (k, v) :: t else (k2, v2) :: dictInsert k v t

/-- Dictionary lookup. -/
def dictFind : List (String × RawData) → String → Option RawData
  | [], _ => none
  | (k, v) :: t, b => if k = b then some v else dictFind t b

/-- The `results` accumulation of `main_flow` (Python lines 426-435):
for each input path, the extracted record is stored under
`os.path.basename(file_path)`.  `ext` abstracts the per-file
extraction (`create_financial_assistant` followed by
`extract_financial_data`). -/
def main_results (ext : String → RawData) (paths : List String) :
    List (String × RawData) :=
  paths.foldl (fun acc p => dictInsert (basename p) (ext p) acc) []

/-! ## Derived definitions used by the verification -/

/-- DB-level view of the persistence loop.  Because `save_financial_data`
commits or rolls back at the end of every document, the pending state of
the connection equals the committed state at every loop boundary; this
function is proved equivalent to `save_loop` on such states in
`save_loop_diag`. -/
def saveDB : DB → List (String × RawData) → DB × Bool
  | db, [] => (db, false)
  | db, (_, data) :: rest =>
      match data.document_info with
      | none => (db, true)
      | some i => saveDB ((docUnit db data i).getD db) rest

/-- The committed effect of one successful per-document unit. -/
def DB.appendDoc (db : DB) (row : DocRow) (inc : IncomeStatement)
    (bs : BalanceSheet) (cf : CashFlow) : DB :=
  { documents := db.documents ++ [(db.nextDocId, row)],
    income_statements := db.income_statements ++ [(db.nextDocId, inc)],
    balance_sheets := db.balance_sheets ++ [(db.nextDocId, bs)],
    cash_flows := db.cash_flows ++ [(db.nextDocId, cf)],
    nextDocId := db.nextDocId + 1 }

/-- The four statement tables reference exactly the document rows, one
row per document, in insertion order. -/
def aligned (db : DB) : Prop :=
  db.income_statements.map Prod.fst = db.documents.map Prod.fst
  ∧ db.balance_sheets.map Prod.fst = db.documents.map Prod.fst
  ∧ db.cash_flows.map Prod.fst = db.documents.map Prod.fst

/-- The parse-failure condition of `extract_financial_data`: no
assistant-authored message, or the first assistant message raises in
`json.loads`. -/
def parseFailed (msgs : List Message) : Bool :=
  match msgs.find? (fun m => decide (m.role = "assistant")) with
  | none => true
  | some m =>
      match m.content with
      | Except.error _ => true
      | Except.ok _ => false

/-! ## Concrete records used in scenarios, counterexamples and
witnesses -/

def elemStr : Element := ⟨TagKind.nonnumeric, some "Co", "Apple", none, none⟩

def elemNum : Element := ⟨TagKind.nonfraction, some "Rev", "5", none, none⟩

/-- A schema-conforming payload in which exactly one group
(`cash_flow`) is absent. -/
def rawMissingCashFlow : RawData :=
  { document_info := some ⟨some "Apple", some "2022", some "10-K"⟩,
    income_statement := some ⟨some 1, some 2, some 3⟩,
    balance_sheet := some ⟨some 4, some 5, some 6⟩,
    cash_flow := none }

/-- A valid-JSON payload mismatching the canonical schema entirely. -/
def rawEmpty : RawData := ⟨none, none, none, none⟩

/-- A fully populated record as the pipeline produces on a good day. -/
def sampleDoc (fy : String) (rev : ℚ) : RawData :=
  { document_info := some ⟨some "Apple", some fy, some "10-K"⟩,
    income_statement := some ⟨some rev, some 0, some 0⟩,
    balance_sheet := some ⟨some 0, some 0, some 0⟩,
    cash_flow := some ⟨some 0, some 0, some 0⟩ }

/-- A record lacking the `document_info` group: the lookup at Python
line 235 raises outside the per-document `try`. -/
def noInfoDoc : RawData :=
  { document_info := none,
    income_statement := some ⟨some 1, some 1, some 1⟩,
    balance_sheet := some ⟨some 1, some 1, some 1⟩,
    cash_flow := some ⟨some 1, some 1, some 1⟩ }

/-- A record with a null `company_name`: the documents insert violates
its NOT NULL constraint inside the per-document `try`. -/
def badConstraintDoc : RawData :=
  { document_info := some ⟨none, some "2021", some "10-K"⟩,
    income_statement := some ⟨some 1, some 1, some 1⟩,
    balance_sheet := some ⟨some 1, some 1, some 1⟩,
    cash_flow := some ⟨some 1, some 1, some 1⟩ }

/-- Scenario A of the spec: fiscal years 2020, 2021, 2022 with
revenues 100, 120, 150. -/
def batchA : List (String × RawData) :=
  [("aapl-2020.pdf", sampleDoc "2020" 100),
   ("aapl-2021.pdf", sampleDoc "2021" 120),
   ("aapl-2022.pdf", sampleDoc "2022" 150)]

def dbA : DB := (save_financial_data batchA).1

/-- A document with `total_liabilities = 0`. -/
def zeroLiabDoc : RawData :=
  { document_info := some ⟨some "Zed", some "2020", some "10-K"⟩,
    income_statement := some ⟨some 10, some 1, some 1⟩,
    balance_sheet := some ⟨some 5, some 0, some 5⟩,
    cash_flow := some ⟨some 1, some 1, some 1⟩ }

def dbZ : DB := (save_financial_data [("z", zeroLiabDoc)]).1

/-- A batch with one constraint-violating document in the middle. -/
def batchW : List (String × RawData) :=
  [("a", sampleDoc "2020" 100), ("b", badConstraintDoc), ("c", sampleDoc "2022" 150)]

/-! ## Helper lemmas on the Tag Fact Scanner -/

theorem numericPass_eq (els : List Element) :
    numericPass els
      = (els.filter (fun e => decide (e.kind = TagKind.nonfraction))).filterMap numericFact := by
  induction els with
  | nil => rfl
  | cons e rest ih =>
      by_cases h : e.kind = TagKind.nonfraction
      · cases hf : numericFact e <;>
          simp [numericPass, h, hf, ih, List.filter_cons, List.filterMap_cons]
      · simp [numericPass, h, ih, List.filter_cons]

theorem nonnumericPass_eq (els : List Element) :
    nonnumericPass els
      = (els.filter (fun e => decide (e.kind = TagKind.nonnumeric))).map nonnumericFact := by
  induction els with
  | nil => rfl
  | cons e rest ih =>
      by_cases h : e.kind = TagKind.nonnumeric
      · simp [nonnumericPass, h, ih, List.filter_cons]
      · simp [nonnumericPass, h, ih, List.filter_cons]

theorem save_loop_diag (l : List (String × RawData)) :
    ∀ db : DB, save_loop ⟨db, db⟩ l
      = (⟨(saveDB db l).1, (saveDB db l).1⟩, (saveDB db l).2) := by
  induction l with
  | nil => intro db; rfl
  | cons hd rest ih =>
      intro db
      obtain ⟨label, data⟩ := hd
      cases hinfo : data.document_info with
      | none => simp [save_loop, saveOne, saveDB, hinfo]
      | some i =>
          cases hu : docUnit db data i with
          | none => simp [save_loop, saveOne, saveDB, hinfo, hu, Conn.rollback, ih]
          | some db2 => simp [save_loop, saveOne, saveDB, hinfo, hu, Conn.commit, ih]

theorem save_financial_data_eq (l : List (String × RawData)) :
    save_financial_data l = saveDB emptyDB l := by
  unfold save_financial_data
  rw [save_loop_diag]

theorem docUnit_success (db : DB) (data : RawData) (i : DocInfo)
    (h1 : data.document_info = some i) (h2 : docFails data = false) :
    ∃ row inc bs cf, docUnit db data i = some (db.appendDoc row inc bs cf) := by
  unfold docFails at h2
  rw [h1] at h2
  simp only [Bool.not_eq_false', Bool.and_eq_true, Option.isSome_iff_exists] at h2
  obtain ⟨⟨⟨⟨⟨⟨cn, hcn⟩, ⟨fy, hfy⟩⟩, ⟨dt, hdt⟩⟩, ⟨inc, hinc⟩⟩, ⟨bs, hbs⟩⟩, ⟨cf, hcf⟩⟩ := h2
  refine ⟨⟨cn, fy, dt⟩, inc, bs, cf, ?_⟩
  simp [docUnit, insertDocument, hcn, hfy, hdt, hinc, hbs, hcf, DB.appendDoc]

theorem docUnit_fail (db : DB) (data : RawData) (i : DocInfo)
    (h1 : data.document_info = some i) (h2 : docFails data = true) :
    docUnit db data i = none := by
  cases hcn : i.company_name with
  | none => simp [docUnit, insertDocument, hcn]
  | some cn =>
    cases hfy : i.fiscal_year with
    | none => simp [docUnit, insertDocument, hcn, hfy]
    | some fy =>
      cases hdt : i.document_type with
      | none => simp [docUnit, insertDocument, hcn, hfy, hdt]
      | some dt =>
        cases hinc : data.income_statement with
        | none => simp [docUnit, insertDocument, hcn, hfy, hdt, hinc]
        | some inc =>
          cases hbs : data.balance_sheet with
          | none => simp [docUnit, insertDocument, hcn, hfy, hdt, hinc, hbs]
          | some bs =>
            cases hcf : data.cash_flow with
            | none => simp [docUnit, insertDocument, hcn, hfy, hdt, hinc, hbs, hcf]
            | some cf =>
              exfalso
              unfold docFails at h2
              rw [h1] at h2
              simp [hcn, hfy, hdt, hinc, hbs, hcf] at h2

theorem aligned_appendDoc (db : DB) (row : DocRow) (inc : IncomeStatement)
    (bs : BalanceSheet) (cf : CashFlow) (h : aligned db) :
    aligned (db.appendDoc row inc bs cf) := by
  obtain ⟨h1, h2, h3⟩ := h
  refine ⟨?_, ?_, ?_⟩ <;> simp [DB.appendDoc, h1, h2, h3]

theorem saveDB_main (l : List (String × RawData)) :
    ∀ db : DB, (∀ x ∈ l, (x.2).document_info.isSome = true) →
      (saveDB db l).2 = false
      ∧ (saveDB db l).1.documents.length
          = db.documents.length + l.countP (fun x => !docFails x.2)
      ∧ (aligned db → aligned (saveDB db l).1) := by
  induction l with
  | nil => intro db _; exact ⟨rfl, by simp [saveDB], fun h => h⟩
  | cons hd rest ih =>
      intro db hinfo
      obtain ⟨label, data⟩ := hd
      have hsome : data.document_info.isSome = true := hinfo _ (List.mem_cons_self _ _)
      obtain ⟨i, hi⟩ := Option.isSome_iff_exists.mp hsome
      have hrest : ∀ x ∈ rest, (x.2).document_info.isSome = true := by
        intro x hx; exact hinfo x (List.mem_cons_of_mem _ hx)
      cases hf : docFails data with
      | true =>
          have hu := docUnit_fail db data i hi hf
          have step : saveDB db ((label, data) :: rest) = saveDB db rest := by
            simp [saveDB, hi, hu]
          obtain ⟨a, b, c⟩ := ih db hrest
          refine ⟨by rw [step]; exact a, ?_, by rw [step]; exact c⟩
          rw [step, b, List.countP_cons]
          simp [hf]
      | false =>
          obtain ⟨row, inc, bs, cf, hu⟩ := docUnit_success db data i hi hf
          have step : saveDB db ((label, data) :: rest)
              = saveDB (db.appendDoc row inc bs cf) rest := by
            simp [saveDB, hi, hu]
          obtain ⟨a, b, c⟩ := ih (db.appendDoc row inc bs cf) hrest
          refine ⟨by rw [step]; exact a, ?_, ?_⟩
          · rw [step, b, List.countP_cons]
            simp [hf, DB.appendDoc]
            omega
          · rw [step]
            intro hal
            exact c (aligned_appendDoc db row inc bs cf hal)

theorem saveDB_no_abort (l : List (String × RawData)) :
    ∀ db : DB, (saveDB db l).2 = false →
      ∀ x ∈ l, (x.2).document_info.isSome = true := by
  induction l with
  | nil => intro db _ x hx; exact absurd hx (List.not_mem_nil x)
  | cons hd rest ih =>
      intro db h x hx
      obtain ⟨label, data⟩ := hd
      cases hi : data.document_info with
      | none =>
          rw [show saveDB db ((label, data) :: rest) = (db, true) by simp [saveDB, hi]] at h
          exact absurd h (by simp)
      | some i =>
          have step : saveDB db ((label, data) :: rest)
              = saveDB ((docUnit db data i).getD db) rest := by simp [saveDB, hi]
          rw [step] at h
          rcases List.mem_cons.mp hx with hx1 | hx2
          · subst hx1; simp [hi]
          · exact ih _ h x hx2

theorem saveDB_mono (l : List (String × RawData)) :
    ∀ db : DB, ∃ t1 t2 t3 t4,
      (saveDB db l).1.documents = db.documents ++ t1
      ∧ (saveDB db l).1.income_statements = db.income_statements ++ t2
      ∧ (saveDB db l).1.balance_sheets = db.balance_sheets ++ t3
      ∧ (saveDB db l).1.cash_flows = db.cash_flows ++ t4 := by
  induction l with
  | nil =>
      intro db
      exact ⟨[], [], [], [], by simp [saveDB], by simp [saveDB], by simp [saveDB],
        by simp [saveDB]⟩
  | cons hd rest ih =>
      intro db
      obtain ⟨label, data⟩ := hd
      cases hi : data.document_info with
      | none =>
          exact ⟨[], [], [], [], by simp [saveDB, hi], by simp [saveDB, hi],
            by simp [saveDB, hi], by simp [saveDB, hi]⟩
      | some i =>
          cases hu : docUnit db data i with
          | none =>
              obtain ⟨t1, t2, t3, t4, e1, e2, e3, e4⟩ := ih db
              exact ⟨t1, t2, t3, t4, by simp [saveDB, hi, hu, e1],
                by simp [saveDB, hi, hu, e2], by simp [saveDB, hi, hu, e3],
                by simp [saveDB, hi, hu, e4]⟩
          | some db2 =>
              have hshape : ∃ row inc bs cf, db2 = db.appendDoc row inc bs cf := by
                cases hff : docFails data with
                | true => rw [docUnit_fail db data i hi hff] at hu; exact absurd hu (by simp)
                | false =>
                    obtain ⟨row, inc, bs, cf, hu2⟩ := docUnit_success db data i hi hff
                    rw [hu2] at hu
                    exact ⟨row, inc, bs, cf, by injection hu with h; exact h.symm⟩
              obtain ⟨row, inc, bs, cf, hdb2⟩ := hshape
              subst hdb2
              obtain ⟨t1, t2, t3, t4, e1, e2, e3, e4⟩ := ih (db.appendDoc row inc bs cf)
              have step : saveDB db ((label, data) :: rest)
                  = saveDB (db.appendDoc row inc bs cf) rest := by simp [saveDB, hi, hu]
              refine ⟨(db.nextDocId, row) :: t1, (db.nextDocId, inc) :: t2,
                (db.nextDocId, bs) :: t3, (db.nextDocId, cf) :: t4, ?_, ?_, ?_, ?_⟩
              · rw [step, e1]; simp [DB.appendDoc]
              · rw [step, e2]; simp [DB.appendDoc]
              · rw [step, e3]; simp [DB.appendDoc]
              · rw [step, e4]; simp [DB.appendDoc]

theorem saveDB_append (l1 l2 : List (String × RawData)) :
    ∀ db : DB, (saveDB db l1).2 = false →
      saveDB db (l1 ++ l2) = saveDB (saveDB db l1).1 l2 := by
  induction l1 with
  | nil => intro db _; simp [saveDB]
  | cons hd rest ih =>
      intro db h
      obtain ⟨label, data⟩ := hd
      cases hi : data.document_info with
      | none =>
          rw [show saveDB db ((label, data) :: rest) = (db, true) by simp [saveDB, hi]] at h
          exact absurd h (by simp)
      | some i =>
          have step : ∀ l, saveDB db ((label, data) :: l)
              = saveDB ((docUnit db data i).getD db) l := by intro l; simp [saveDB, hi]
          rw [step] at h
          rw [List.cons_append, step (rest ++ l2), step rest]
          exact ih _ h

theorem saveDB_middle_fail (pre : List (String × RawData)) (x : String × RawData)
    (post : List (String × RawData)) (i : DocInfo)
    (hinfo : (x.2).document_info = some i) (hfail : docFails x.2 = true) :
    ∀ db : DB, saveDB db (pre ++ x :: post) = saveDB db (pre ++ post) := by
  induction pre with
  | nil =>
      intro db
      obtain ⟨label, data⟩ := x
      have hinfo2 : data.document_info = some i := hinfo
      have hfail2 : docFails data = true := hfail
      simp only [List.nil_append]
      simp [saveDB, hinfo2, docUnit_fail db data i hinfo2 hfail2]
  | cons hd rest ih =>
      intro db
      obtain ⟨label2, data2⟩ := hd
      cases hi2 : data2.document_info with
      | none => simp [saveDB, hi2]
      | some j => simp [saveDB, hi2, ih]

/-! ## Helper lemmas on the main flow batch map -/

theorem dictFind_insert (m : List (String × RawData)) (k : String) (v : RawData) (b : String) :
    dictFind (dictInsert k v m) b = if k = b then some v else dictFind m b := by
  induction m with
  | nil => simp [dictInsert, dictFind]
  | cons hd t ih =>
      obtain ⟨k2, v2⟩ := hd
      by_cases h2 : k2 = k
      · subst h2
        simp [dictInsert, dictFind]
        by_cases hb : k2 = b <;> simp [hb, dictFind]
      · simp [dictInsert, h2, dictFind]
        by_cases hb : k2 = b
        · subst hb
          have hne : ¬ k = k2 := fun hh => h2 hh.symm
          simp [hne, dictFind, ih]
        · simp [hb, dictFind, ih]

theorem mem_keys_dictInsert (m : List (String × RawData)) (k : String) (v : RawData)
    (b : String) (h : b ∈ (dictInsert k v m).map Prod.fst) :
    b = k ∨ b ∈ m.map Prod.fst := by
  induction m with
  | nil =>
      simp only [dictInsert, List.map_cons, List.map_nil, List.mem_singleton] at h
      exact Or.inl h
  | cons hd t ih =>
      obtain ⟨k2, v2⟩ := hd
      by_cases h2 : k2 = k
      · subst h2
        simp only [dictInsert, if_pos rfl, List.map_cons] at h
        rcases List.mem_cons.mp h with h | h
        · exact Or.inl h
        · exact Or.inr (by rw [List.map_cons]; exact List.mem_cons_of_mem _ h)
      · simp only [dictInsert, if_neg h2, List.map_cons] at h
        rcases List.mem_cons.mp h with h | h
        · subst h
          exact Or.inr (by rw [List.map_cons]; exact List.mem_cons_self _ _)
        · rcases ih h with h3 | h3
          · exact Or.inl h3
          · exact Or.inr (by rw [List.map_cons]; exact List.mem_cons_of_mem _ h3)

theorem keys_nodup_dictInsert (m : List (String × RawData)) (k : String) (v : RawData)
    (h : (m.map Prod.fst).Nodup) : ((dictInsert k v m).map Prod.fst).Nodup := by
  induction m with
  | nil => simp [dictInsert]
  | cons hd t ih =>
      obtain ⟨k2, v2⟩ := hd
      simp only [List.map_cons, List.nodup_cons] at h
      obtain ⟨hnot, ht⟩ := h
      by_cases h2 : k2 = k
      · subst h2
        simp only [dictInsert, eq_self_iff_true, if_true, List.map_cons, List.nodup_cons]
        exact ⟨hnot, ht⟩
      · simp only [dictInsert, if_neg h2, List.map_cons, List.nodup_cons]
        refine ⟨?_, ih ht⟩
        intro hmem
        rcases mem_keys_dictInsert t k v k2 hmem with h3 | h3
        · exact h2 h3
        · exact hnot h3

theorem main_results_find (ext : String → RawData) (paths : List String) :
    ∀ (acc : List (String × RawData)) (b : String),
      dictFind (paths.foldl (fun acc p => dictInsert (basename p) (ext p) acc) acc) b
        = (((paths.filter (fun p => decide (basename p = b))).getLast?).map ext).or
            (dictFind acc b) := by
  induction paths with
  | nil => intro acc b; simp [List.filter_nil, Option.or]
  | cons p ps ih =>
      intro acc b
      simp only [List.foldl_cons, List.filter_cons]
      rw [ih]
      by_cases h : basename p = b
      · simp only [h, eq_self_iff_true, decide_true_eq_true, if_true, List.getLast?_cons,
          dictFind_insert]
        cases hl : (ps.filter (fun q => decide (basename q = b))).getLast? <;>
          simp [hl, Option.or]
      · have hd : (decide (basename p = b)) = false := by simp [h]
        rw [hd]
        simp only [Bool.false_eq_true, if_false]
        rw [dictFind_insert]
        simp [if_neg h]

theorem main_results_nodup (ext : String → RawData) (paths : List String) :
    ∀ acc : List (String × RawData), ((acc.map Prod.fst).Nodup) →
      (((paths.foldl (fun acc p => dictInsert (basename p) (ext p) acc) acc).map
        Prod.fst).Nodup) := by
  induction paths with
  | nil => intro acc h; exact h
  | cons p ps ih =>
      intro acc h
      exact ih _ (keys_nodup_dictInsert acc (basename p) (ext p) h)

/-! ## Claim theorems -/

/-- Claim C1 (code bug evidence): `extract_financial_data` places its two
release calls after the remote calls with no `try`/`finally`.  On the
execution path where `messages.list` raises (third component of the
environment), or where the poll-loop retrieve raises, neither the
assistant session nor the uploaded file handle is released — both leak —
while on every normally returning path each is released exactly once. -/
theorem orchestrator_release_eval :
    (extract_financial_data ⟨false, false, true⟩ []).1 = ⟨0, 0, true⟩
    ∧ (extract_financial_data ⟨false, true, false⟩ []).1 = ⟨0, 0, true⟩
    ∧ (extract_financial_data happyEnv []).1 = ⟨1, 1, false⟩
    ∧ (extract_financial_data happyEnv [⟨"assistant", Except.error ()⟩]).1
        = ⟨1, 1, false⟩ := by
  refine ⟨rfl, rfl, rfl, rfl⟩

/-- Claim C2 counterexample: a successfully parsed payload from which
exactly one group (`cash_flow`) is absent is handed downstream exactly
as it is — the missing group stays missing, no zero-filled default is
substituted for it — refuting the claimed per-group defaulting. -/
theorem normalizer_partial_default_counterexample :
    (extract_financial_data happyEnv [⟨"assistant", Except.ok rawMissingCashFlow⟩]).2
      = some rawMissingCashFlow
    ∧ rawMissingCashFlow.cash_flow = none
    ∧ rawMissingCashFlow.income_statement = some ⟨some 1, some 2, some 3⟩
    ∧ rawMissingCashFlow.cash_flow ≠ default_data.cash_flow := by
  refine ⟨rfl, rfl, rfl, by decide⟩

/-- Claim C2 (amended): the only defaulting in the extraction path is
whole-record — the parse stage either returns `default_data` in its
entirety or passes some assistant-message payload through completely
unchanged; no per-group substitution ever happens. -/
theorem normalizer_passthrough_or_default (msgs : List Message) :
    extract_parse msgs = default_data
    ∨ ∃ m ∈ msgs, m.role = "assistant" ∧ m.content = Except.ok (extract_parse msgs) := by
  unfold extract_parse
  cases hf : msgs.find? (fun m => decide (m.role = "assistant")) with
  | none => left; rfl
  | some m =>
      have hmem := List.mem_of_find?_eq_some hf
      have hrole := List.find?_some hf
      simp at hrole
      obtain ⟨role, content⟩ := m
      cases content with
      | error e => left; rfl
      | ok r => right; exact ⟨⟨role, Except.ok r⟩, hmem, hrole, rfl⟩

/-- Claim C3 counterexample: in the batch (good, missing-document_info,
good), the middle document raises at the `data["document_info"]` lookup
outside the per-document `try`, ending the loop: only the first
document is committed and the third — which on its own would succeed
(`docFails` is false for it) — never reaches the store, refuting
"no single failure aborts the rest of the batch". -/
theorem persist_batch_abort_counterexample :
    (save_financial_data
        [("a", sampleDoc "2020" 100), ("b", noInfoDoc), ("c", sampleDoc "2022" 150)]).2
      = true
    ∧ (save_financial_data
        [("a", sampleDoc "2020" 100), ("b", noInfoDoc), ("c", sampleDoc "2022" 150)]).1.documents.map
          (fun r => (r.2).fiscal_year) = ["2020"]
    ∧ docFails (sampleDoc "2022" 150) = false := by
  refine ⟨by decide, by decide, by decide⟩

/-- Claim C3 (amended): a document whose write fails inside the
per-document insert/commit block — any record whose `document_info`
lookup succeeds but whose unit then raises (NOT NULL constraint
violation, missing statement group) — is rolled back in isolation: the
batch result is exactly as if that document had not been in the batch,
so every other document is unaffected and processing continues.  (A
record with no `document_info` group instead raises outside the handler
and aborts the remaining batch, per the counterexample.) -/
theorem persist_failure_isolation (pre post : List (String × RawData))
    (x : String × RawData) (i : DocInfo)
    (hinfo : (x.2).document_info = some i) (hfail : docFails x.2 = true) :
    save_financial_data (pre ++ x :: post) = save_financial_data (pre ++ post) := by
  rw [save_financial_data_eq, save_financial_data_eq]
  exact saveDB_middle_fail pre x post i hinfo hfail emptyDB

/-- Witness for `persist_failure_isolation` at a concrete batch with a
constraint-violating document in the middle. -/
theorem persist_failure_isolation_witness :
    badConstraintDoc.document_info = some ⟨none, some "2021", some "10-K"⟩
    ∧ docFails badConstraintDoc = true
    ∧ save_financial_data
        ([("a", sampleDoc "2020" 100)] ++ ("b", badConstraintDoc) :: [("c", sampleDoc "2022" 150)])
      = save_financial_data ([("a", sampleDoc "2020" 100)] ++ [("c", sampleDoc "2022" 150)]) :=
  ⟨rfl, by decide,
    persist_failure_isolation [("a", sampleDoc "2020" 100)] [("c", sampleDoc "2022" 150)]
      ("b", badConstraintDoc) ⟨none, some "2021", some "10-K"⟩ rfl (by decide)⟩

/-- Claim C4: whenever `save_financial_data` returns (no uncaught
exception), the committed store contains exactly one document row per
non-failing batch entry; the three statement tables carry exactly the
same document ids in the same order as the documents table, so no
document is partially written; and the store committed after any prefix
of the batch persists unaltered as a prefix of the final store — later
failures never remove or change earlier commits. -/
theorem persist_commit_report (batch : List (String × RawData))
    (h : (save_financial_data batch).2 = false) :
    (save_financial_data batch).1.documents.length
        = batch.countP (fun x => !docFails x.2)
    ∧ (save_financial_data batch).1.income_statements.map Prod.fst
        = (save_financial_data batch).1.documents.map Prod.fst
    ∧ (save_financial_data batch).1.balance_sheets.map Prod.fst
        = (save_financial_data batch).1.documents.map Prod.fst
    ∧ (save_financial_data batch).1.cash_flows.map Prod.fst
        = (save_financial_data batch).1.documents.map Prod.fst
    ∧ ∀ k : ℕ, ∃ t, (save_financial_data batch).1.documents
        = (save_financial_data (batch.take k)).1.documents ++ t := by
  rw [save_financial_data_eq] at h ⊢
  have hinfo := saveDB_no_abort batch emptyDB h
  obtain ⟨ha, hb, hc⟩ := saveDB_main batch emptyDB hinfo
  have hal : aligned (saveDB emptyDB batch).1 := hc ⟨rfl, rfl, rfl⟩
  refine ⟨by simpa [emptyDB] using hb, hal.1, hal.2.1, hal.2.2, ?_⟩
  intro k
  rw [save_financial_data_eq]
  have htk : (saveDB emptyDB (batch.take k)).2 = false := by
    obtain ⟨a2, _, _⟩ := saveDB_main (batch.take k) emptyDB
      (fun x hx => hinfo x (List.mem_of_mem_take hx))
    exact a2
  have happ := saveDB_append (batch.take k) (batch.drop k) emptyDB htk
  rw [List.take_append_drop] at happ
  obtain ⟨t1, _, _, _, e1, _, _, _⟩ := saveDB_mono (batch.drop k) (saveDB emptyDB (batch.take k)).1
  exact ⟨t1, by rw [happ, e1]⟩

/-- Witness for `persist_commit_report` on a concrete batch containing
one constraint-violating document among two good ones. -/
theorem persist_commit_report_witness :
    (save_financial_data batchW).2 = false
    ∧ (save_financial_data batchW).1.documents.length
        = batchW.countP (fun x => !docFails x.2) :=
  ⟨by decide, (persist_commit_report batchW (by decide)).1⟩

/-- Claim C6 counterexample: a valid-JSON assistant payload that
mismatches the canonical schema (here: an object with none of the four
groups) is returned as-is, not replaced by the fixed default record —
refuting the claim that schema mismatch yields the default. -/
theorem extract_schema_mismatch_counterexample :
    (extract_financial_data happyEnv [⟨"assistant", Except.ok rawEmpty⟩]).2 = some rawEmpty
    ∧ rawEmpty ≠ default_data
    ∧ rawEmpty.document_info = none := by
  refine ⟨rfl, by decide, rfl⟩

/-- Claim C6 (amended): the fixed default record — company "Unknown",
fiscal year "2023", document type "10-K", all nine numeric fields 0 —
is returned exactly when the run produces no assistant-authored message
or the first assistant message fails JSON decoding; valid JSON that
merely mismatches the schema is passed through unvalidated. -/
theorem extract_default_on_parse_failure (msgs : List Message)
    (h : parseFailed msgs = true) :
    (extract_financial_data happyEnv msgs).2 = some default_data
    ∧ default_data.document_info = some ⟨some "Unknown", some "2023", some "10-K"⟩
    ∧ default_data.income_statement = some ⟨some 0, some 0, some 0⟩
    ∧ default_data.balance_sheet = some ⟨some 0, some 0, some 0⟩
    ∧ default_data.cash_flow = some ⟨some 0, some 0, some 0⟩ := by
  refine ⟨?_, rfl, rfl, rfl, rfl⟩
  unfold parseFailed at h
  unfold extract_financial_data happyEnv extract_parse
  simp only
  cases hf : msgs.find? (fun m => decide (m.role = "assistant")) with
  | none => rfl
  | some m =>
      rw [hf] at h
      obtain ⟨role, content⟩ := m
      cases content with
      | error e => rfl
      | ok r => simp at h

/-- Witness for `extract_default_on_parse_failure` at a run whose only
assistant message is malformed JSON. -/
theorem extract_default_on_parse_failure_witness :
    parseFailed [⟨"assistant", Except.error ()⟩] = true
    ∧ (extract_financial_data happyEnv [⟨"assistant", Except.error ()⟩]).2
        = some default_data :=
  ⟨rfl, (extract_default_on_parse_failure [⟨"assistant", Except.error ()⟩] rfl).1⟩

/-- Claim C7: persisting the three-document batch with fiscal years
2020, 2021, 2022 and revenues 100, 120, 150 and evaluating the
year-over-year revenue growth query yields exactly the two rows 20.0
for 2021 and 25.0 for 2022 — the 2020 row, having no predecessor, is
excluded. -/
theorem yoy_revenue_growth_scenario :
    yoy_revenue dbA = [("2021", some 20), ("2022", some 25)] := by
  have h : dbA = { documents := [(1, ⟨"Apple", "2020", "10-K"⟩), (2, ⟨"Apple", "2021", "10-K"⟩),
                     (3, ⟨"Apple", "2022", "10-K"⟩)],
                   income_statements := [(1, ⟨some 100, some 0, some 0⟩),
                     (2, ⟨some 120, some 0, some 0⟩), (3, ⟨some 150, some 0, some 0⟩)],
                   balance_sheets := [(1, ⟨some 0, some 0, some 0⟩), (2, ⟨some 0, some 0, some 0⟩),
                     (3, ⟨some 0, some 0, some 0⟩)],
                   cash_flows := [(1, ⟨some 0, some 0, some 0⟩), (2, ⟨some 0, some 0, some 0⟩),
                     (3, ⟨some 0, some 0, some 0⟩)],
                   nextDocId := 4 } := by decide
  rw [h]
  simp [yoy_revenue, docIncomeJoin, sortByYear, List.insertionSort, List.orderedInsert,
    strLe, charListLe, sqlSub, sqlDiv, sqlRound2]
  norm_num

/-- Claim C8: the liquidity query is total — SQLite division yields
NULL on a zero denominator instead of raising — so a store holding a
fiscal year with `total_liabilities = 0` still produces one output row
per joined document row, and the zero-liability year surfaces as a row
whose value is NULL (reported, not a crash). -/
theorem liquidity_zero_denominator_reported (db : DB) (fy : String)
    (p : Option ℚ × Option ℚ)
    (hmem : (fy, p) ∈ docBalanceJoin db) (h0 : p.2 = some 0) :
    (fy, (none : Option ℚ)) ∈ liquidity_rows db
    ∧ (liquidity_rows db).length = (docBalanceJoin db).length := by
  constructor
  · unfold liquidity_rows
    have hperm : (sortByYear (docBalanceJoin db)).Perm (docBalanceJoin db) :=
      List.perm_insertionSort _ _
    have hmem2 : (fy, p) ∈ sortByYear (docBalanceJoin db) := hperm.mem_iff.mpr hmem
    have hmap := List.mem_map_of_mem
      (fun r => (r.1, (sqlDiv (sqlSub r.2.1 r.2.2) r.2.2).map (fun q => sqlRound2 (q * 100))))
      hmem2
    have hval : (sqlDiv (sqlSub p.1 p.2) p.2).map (fun q => sqlRound2 (q * 100))
        = (none : Option ℚ) := by
      rw [h0]
      cases p.1 <;> simp [sqlSub, sqlDiv]
    simpa [hval] using hmap
  · have hperm : (sortByYear (docBalanceJoin db)).Perm (docBalanceJoin db) :=
      List.perm_insertionSort _ _
    simp [liquidity_rows, hperm.length_eq]

/-- Witness for `liquidity_zero_denominator_reported` on a store with a
persisted zero-liability document. -/
theorem liquidity_zero_denominator_reported_witness :
    ("2020", ((some 5 : Option ℚ), (some 0 : Option ℚ))) ∈ docBalanceJoin dbZ
    ∧ ("2020", (none : Option ℚ)) ∈ liquidity_rows dbZ :=
  ⟨by decide,
   (liquidity_zero_denominator_reported dbZ "2020" (some 5, some 0) (by decide) rfl).1⟩

/-- Claim C9 counterexample: with a non-numeric-tagged element before a
numeric-tagged element in the document, the emitted facts come out
numeric-first — the two scanner loops group by tag kind — refuting
cross-kind document order. -/
theorem scanner_document_order_counterexample :
    extract_features [elemStr, elemNum]
      = [⟨"nonfraction", "Rev", FactValue.num 5, "Unknown", "Unknown"⟩,
         ⟨"nonnumeric", "Co", FactValue.str "Apple", "N/A", "N/A"⟩]
    ∧ (extract_features [elemStr, elemNum]).head?
        ≠ some ⟨"nonnumeric", "Co", FactValue.str "Apple", "N/A", "N/A"⟩ := by
  constructor
  · simp [extract_features, numericPass, nonnumericPass, numericFact, nonnumericFact, elemStr,
      elemNum, pyStrip, pyIsSpace, removeCommas, matchesNumeral, matchesDigitsDot, parseNumeral,
      digitsToNat]
  · simp [extract_features, numericPass, nonnumericPass, numericFact, nonnumericFact, elemStr,
      elemNum, pyStrip, pyIsSpace, removeCommas, matchesNumeral, matchesDigitsDot, parseNumeral,
      digitsToNat]

/-- Claim C9 (amended): `extract_features` emits facts grouped by tag
kind — every numeric-tagged fact before every non-numeric-tagged fact —
and within each group in the document order of the elements, with no
deduplication (`filterMap` and `map` preserve order and multiplicity). -/
theorem scanner_grouped_order (els : List Element) :
    extract_features els
      = (els.filter (fun e => decide (e.kind = TagKind.nonfraction))).filterMap numericFact
        ++ (els.filter (fun e => decide (e.kind = TagKind.nonnumeric))).map nonnumericFact := by
  unfold extract_features
  rw [numericPass_eq, nonnumericPass_eq]

/-- Claim C10: the batch map of `main_flow` is keyed by the basename of
each input path: its keys are duplicate-free, and the record stored
under a basename is the extraction result of the **last** input path
bearing that basename — so of several paths sharing a basename, only
the final one survives to persistence, export and the returned
results. -/
theorem main_flow_basename_keyed (ext : String → RawData) (paths : List String) (b : String) :
    ((main_results ext paths).map Prod.fst).Nodup
    ∧ dictFind (main_results ext paths) b
        = ((paths.filter (fun p => decide (basename p = b))).getLast?).map ext := by
  constructor
  · exact main_results_nodup ext paths [] (by simp)
  · unfold main_results
    rw [main_results_find]
    rw [show dictFind [] b = none from rfl]
    cases hv : ((paths.filter (fun p => decide (basename p = b))).getLast?).map ext <;>
      simp [hv, Option.or]

end Aura
